import Mathlib

/-!
Shallow embedding of the wallet-authentication and submission/payout core of
the LinkPepper (LinkHash) Django application, together with theorems checking
the design specification against the code.

Sources embedded:
  - backend/core/views.py    (auth API, submission endpoints, helpers)
  - backend/core/models.py   (Campaign, Submission, Payout, WalletUser)
  - backend/core/middleware.py (WalletAuthMiddleware)
  - backend/core/admin.py    (review actions, payout creation)

Python strings are modelled as Lean `String`; Python `str.strip()`,
`str.lower()`, `str.upper()` are modelled over the ASCII range used by the
data involved.  Dates (`datetime.date`) are modelled as `Int` ordinals, which
preserves the only operation used on them (total order comparison).  Database
timestamps are modelled as `Nat`.
-/

namespace LinkPepper

/-! ## Python string primitives -/

/-- ASCII whitespace recognised by Python `str.strip()`. -/
def pyIsSpace (c : Char) : Bool :=
  c = ' ' || c = '\t' || c = '\n' || c = '\x0b' || c = '\x0c' || c = '\r'

/-- Drop leading whitespace from a character list. -/
def lstripChars : List Char → List Char
  | [] => []
  | c :: cs => if pyIsSpace c then lstripChars cs else c :: cs

/-- Python `s.strip()`: remove leading and trailing whitespace. -/
def pyStrip (s : String) : String :=
  ⟨lstripChars ((lstripChars s.data.reverse).reverse)⟩

/-- Python `s.lower()` (ASCII range). -/
def pyLower (s : String) : String := ⟨s.data.map Char.toLower⟩

/-- Python `s.upper()` (ASCII range). -/
def pyUpper (s : String) : String := ⟨s.data.map Char.toUpper⟩

/-- Python `(x or "")` for an optional form/JSON field. -/
def getOr (a : Option String) : String :=
  match a with
  | some s => s
  | none => ""

/-- Python `a or b` on optional strings: `a` unless it is `None` or empty. -/
def orElseStr (a b : Option String) : Option String :=
  match a with
  | some s => if s = "" then b else some s
  | none => b

/-- Python `s.startswith(pre)`, expressed on the character lists so that the
kernel can evaluate it. -/
def strStartsWith (s pre : String) : Bool := pre.data.isPrefixOf s.data

/-! ## views.py helpers -/

/-- `views._normalize_evm_address`: `None` on falsy input, else strip; accept
exactly the strings that start with the literal `"0x"` and have length 42,
returning them lowercased; reject everything else. -/
def _normalize_evm_address (addr : Option String) : Option String :=
  match addr with
  | none => none
  | some s =>
    if s = "" then none
    else
      let a := pyStrip s
      if strStartsWith a "0x" && a.length = 42 then some (pyLower a) else none

/-- `views._login_message`: the canonical challenge text embedding a nonce. -/
def _login_message (nonce : String) : String :=
  "LinkHash login\n\nNonce: " ++ nonce ++ "\n\nThis signature proves you control this wallet."

/-! ## models.py enumerations -/

/-- `models.Network` choices. -/
inductive Network where
  | ETH | SOL | BNB | POL
deriving DecidableEq, Repr

/-- Membership test of `views._clean_network`: `v in dict(Network.choices)`. -/
def Network.fromString (s : String) : Option Network :=
  if s = "ETH" then some .ETH
  else if s = "SOL" then some .SOL
  else if s = "BNB" then some .BNB
  else if s = "POL" then some .POL
  else none

/-- `views._clean_network`: uppercase, strip, then check membership. -/
def _clean_network (value : Option String) : Option Network :=
  Network.fromString (pyStrip (pyUpper (getOr value)))

/-- `models.TaskType` choices (MIXED kept only for legacy rows). -/
inductive TaskType where
  | VISIT | LINK | MIXED_LEGACY
deriving DecidableEq, Repr

/-- `models.SubmissionStatus` choices. -/
inductive SubmissionStatus where
  | PENDING | APPROVED | REJECTED | PAID
deriving DecidableEq, Repr

/-! ## Campaign -/

/-- The fields of `models.Campaign` used by the embedded operations.
`start` and `end` are `DateField`s, modelled as `Int` day ordinals. -/
structure Campaign where
  id : Nat
  slug : String
  task_type : TaskType
  client_site_domain : String
  pool_usdt : Int
  payout_usdt : Int
  start : Int
  «end» : Int
  is_published : Bool
  is_paused : Bool
deriving DecidableEq, Repr

/-- `Campaign.is_open_now` (models.py): within the date window, not paused,
and published.  `today` is the value of `timezone.localdate()`. -/
def Campaign.is_open_now (c : Campaign) (today : Int) : Bool :=
  (decide (c.start ≤ today) && decide (today ≤ c.«end»)) && !c.is_paused && c.is_published

/-! ## WalletUser and the authentication API -/

/-- The fields of `models.WalletUser` used by the embedded operations.
`address` carries a `unique=True` database constraint; states built by the
embedded operations keep addresses distinct, which justifies updating rows
by address below. -/
structure WalletUser where
  id : Nat
  address : String
  display_name : String
  email : String
  nonce : String
  last_login : Option Nat
  is_admin : Bool
deriving DecidableEq, Repr

/-- `WalletUser.objects.get(address=a)` / `get_or_create(address=a)` lookup:
the row with the given (unique) address. -/
def findByAddress (users : List WalletUser) (a : String) : Option WalletUser :=
  users.find? (fun u => u.address = a)

/-- `user.save(...)`: write back the row.  Addresses are unique in the table,
and the saves performed by the embedded views never change an address, so
writing back by address coincides with Django writing back by primary key. -/
def saveByAddress (users : List WalletUser) (u : WalletUser) : List WalletUser :=
  users.map (fun v => if v.address = u.address then u else v)

/-- The server state seen by the auth API: the WalletUser table and the
session key `wallet_user_id` of the calling session (`none` when unbound). -/
structure AuthState where
  users : List WalletUser
  session : Option Nat
deriving DecidableEq, Repr

/-- `views.api_nonce` (GET /api/auth/nonce): normalize the address (400
`"invalid address"` on failure), get-or-create the WalletUser, overwrite its
nonce with a fresh random token, and return `(address, nonce, message)`.
The random `secrets.token_urlsafe(24)` value is passed in as `token`, and the
autoincrement id a created row would receive as `freshId`. -/
def api_nonce (raw : Option String) (token : String) (freshId : Nat)
    (users : List WalletUser) :
    Except String (List WalletUser × WalletUser × String) :=
  match _normalize_evm_address raw with
  | none => .error "invalid address"
  | some addr =>
    let user : WalletUser :=
      match findByAddress users addr with
      | some u => u
      | none =>
        { id := freshId, address := addr, display_name := addr, email := ""
          nonce := "", last_login := none, is_admin := false }
    let users1 :=
      match findByAddress users addr with
      | some _ => users
      | none => users ++ [user]
    let user' := { user with nonce := token }
    .ok (saveByAddress users1 user', user', _login_message token)

/-- `views.api_verify` (POST /api/auth/verify).  `recover` models
`Account.recover_message(encode_defunct(text=m), signature=s)`: it returns the
recovered signer address, or `none` when recovery raises.  On success the
session is bound to the user id, `last_login` is set to `now`, and the nonce
is cleared, in one state update.  Error strings are the literal 400 bodies of
the view (the bad-signature body, which interpolates the exception text in
the source, is represented by its fixed prefix). -/
def api_verify (recover : String → String → Option String) (now : Nat)
    (addrRaw msgRaw sigRaw : Option String) (st : AuthState) :
    Except String (AuthState × WalletUser) :=
  let address := _normalize_evm_address addrRaw
  let message := pyStrip (getOr msgRaw)
  let signature := pyStrip (getOr sigRaw)
  match address with
  | none => .error "missing fields"
  | some addr =>
    if message = "" then .error "missing fields"
    else if signature = "" then .error "missing fields"
    else
      match findByAddress st.users addr with
      | none => .error "unknown address"
      | some user =>
        if user.nonce = "" then .error "no nonce; request /api/auth/nonce first"
        else
          let expected_message := _login_message user.nonce
          if message ≠ expected_message then .error "message mismatch"
          else
            match recover message signature with
            | none => .error "bad signature"
            | some recRaw =>
              let recovered := pyLower recRaw
              if recovered ≠ addr then .error "address mismatch"
              else
                let user' := { user with last_login := some now, nonce := "" }
                .ok ({ users := saveByAddress st.users user'
                       session := some user.id }, user')

/-- `views.api_logout` (POST /api/auth/logout): drop the session binding. -/
def api_logout (st : AuthState) : AuthState :=
  { st with session := none }

/-! ## Session read path -/

/-- `middleware.WalletAuthMiddleware.__call__`: before every request, resolve
the session binding to a `request.wallet_user` attribute; when the session
references an id with no matching row, the stale `wallet_user_id` key is
popped from the session.  Returns the attribute and the session after the
middleware ran.  (`if uid:` treats a zero id as absent; WalletUser ids are
positive `BigAutoField` values.) -/
def walletAuthMiddleware (users : List WalletUser) (session : Option Nat) :
    Option WalletUser × Option Nat :=
  match session with
  | none => (none, session)
  | some uid =>
    if uid = 0 then (none, session)
    else
      match users.find? (fun u => u.id = uid) with
      | some u => (some u, session)
      | none => (none, none)

/-- `views.get_wallet_user`: return `request.wallet_user` when the middleware
set it, otherwise fall back to resolving `session["wallet_user_id"]` with
`WalletUser.objects.filter(id=uid).first()`. -/
def get_wallet_user (users : List WalletUser) (wallet_user_attr : Option WalletUser)
    (session : Option Nat) : Option WalletUser :=
  match wallet_user_attr with
  | some wu => some wu
  | none =>
    match session with
    | none => none
    | some uid =>
      if uid = 0 then none
      else users.find? (fun u => u.id = uid)

/-- The session read accessor as executed on a request: the middleware runs
first (it is installed in `settings.MIDDLEWARE`), then `get_wallet_user`
reads the attribute it set.  Returns the resolved user and the session the
request ends with. -/
def resolveWalletUser (users : List WalletUser) (session : Option Nat) :
    Option WalletUser × Option Nat :=
  let (attr, session') := walletAuthMiddleware users session
  (get_wallet_user users attr session', session')

/-! ## Submission -/

/-- The fields of `models.Submission`.  `models.Submission.Meta` declares
`ordering` and two `Index`es only: there is no `UniqueConstraint` and no
`unique_together`, so inserting a Submission row never raises a duplicate
`IntegrityError` and the insert in the embedded endpoints is total. -/
structure Submission where
  id : Nat
  campaign_id : Nat
  user_id : Option Nat
  wallet_address : String
  network : Network
  post_url : String
  comment : String
  visited_url : String
  code_entered : String
  status : SubmissionStatus
  proof_score : Option Nat
  reviewer_note : String
  reviewed_by : Option Nat
  reviewed_at : Option Nat
  is_approved : Bool
  is_paid : Bool
deriving DecidableEq, Repr

/-- `Submission.mark_approved` (models.py): set status APPROVED, the approved
flag, and the review timestamp; optionally set reviewer and score; append a
non-empty note to the note log rather than overwriting it. -/
def Submission.mark_approved (s : Submission) (reviewer : Option Nat)
    (score : Option Nat) (note : Option String) (now : Nat) : Submission :=
  let s1 := { s with status := SubmissionStatus.APPROVED, is_approved := true
                     reviewed_at := some now }
  let s2 := match reviewer with
    | some r => { s1 with reviewed_by := some r }
    | none => s1
  let s3 := match score with
    | some sc => { s2 with proof_score := some sc }
    | none => s2
  match note with
  | some n =>
    if n = "" then s3
    else { s3 with reviewer_note :=
             (if s3.reviewer_note ≠ "" then s3.reviewer_note ++ "\n" else "") ++ n }
  | none => s3

/-- `SubmissionAdmin.mark_rejected` (admin.py), per selected row: a
queryset update setting status REJECTED, clearing the approved flag and
stamping the reviewer. -/
def mark_rejected (s : Submission) (reviewer : Nat) (now : Nat) : Submission :=
  { s with status := SubmissionStatus.REJECTED, is_approved := false
           reviewed_at := some now, reviewed_by := some reviewer }

/-! ## Submission endpoints -/

/-- The POST form fields read by `views.submit_link` and
`views.submit_visit`; absent keys are `none`. -/
structure PostData where
  post_url : Option String
  comment : Option String
  wallet : Option String
  wallet_address : Option String
  wallet2 : Option String
  network : Option String
  code : Option String
  visit_code : Option String
  visited_url : Option String
deriving Repr

/-- `views.submit_link` (POST /rewards/submit/link/slug/), after
`get_object_or_404` resolved the slug to `campaign`.  Returns the HTTP
outcome (error = the 400 body text) and the submission table afterwards.
With no uniqueness constraint on Submission, `Submission.objects.create`
cannot raise a duplicate `IntegrityError`, so the `except IntegrityError:
pass` branch of the view is not represented: the insert always succeeds. -/
def submit_link (campaign : Campaign) (user : Option Nat) (d : PostData)
    (today : Int) (freshId : Nat) (subs : List Submission) :
    Except String Unit × List Submission :=
  if campaign.task_type ≠ TaskType.LINK then (.error "wrong task type", subs)
  else if campaign.is_open_now today = false then (.error "campaign closed", subs)
  else
    let post_url := pyStrip (getOr d.post_url)
    let comment := pyStrip (getOr d.comment)
    let wallet := pyStrip (getOr (orElseStr d.wallet d.wallet_address))
    match _clean_network d.network with
    | none => (.error "wallet and network required", subs)
    | some nw =>
      if wallet = "" then (.error "wallet and network required", subs)
      else
        (.ok (), subs ++
          [{ id := freshId, campaign_id := campaign.id, user_id := user
             wallet_address := wallet, network := nw
             post_url := post_url, comment := comment
             visited_url := "", code_entered := ""
             status := SubmissionStatus.PENDING, proof_score := some 0
             reviewer_note := "", reviewed_by := none, reviewed_at := none
             is_approved := false, is_paid := false }])

/-- `views.submit_visit` (POST /rewards/submit/visit/slug/), after
`get_object_or_404` resolved the slug.  `visited_url` is
`campaign.client_site_domain or (request.POST.get("visited_url") or "").strip()`:
the campaign domain wins whenever it is non-blank. -/
def submit_visit (campaign : Campaign) (user : Option Nat) (d : PostData)
    (today : Int) (freshId : Nat) (subs : List Submission) :
    Except String Unit × List Submission :=
  if campaign.task_type ≠ TaskType.VISIT then (.error "wrong task type", subs)
  else if campaign.is_open_now today = false then (.error "campaign closed", subs)
  else
    let code := pyStrip (getOr (orElseStr d.code d.visit_code))
    let wallet := pyStrip (getOr (orElseStr d.wallet2 (orElseStr d.wallet d.wallet_address)))
    let visited_url :=
      if campaign.client_site_domain ≠ "" then campaign.client_site_domain
      else pyStrip (getOr d.visited_url)
    match _clean_network d.network with
    | none => (.error "wallet and network required", subs)
    | some nw =>
      if wallet = "" then (.error "wallet and network required", subs)
      else
        (.ok (), subs ++
          [{ id := freshId, campaign_id := campaign.id, user_id := user
             wallet_address := wallet, network := nw
             post_url := "", comment := ""
             visited_url := visited_url, code_entered := code
             status := SubmissionStatus.PENDING, proof_score := none
             reviewer_note := "", reviewed_by := none, reviewed_at := none
             is_approved := false, is_paid := false }])

/-! ## Payout -/

/-- The fields of `models.Payout`. -/
structure Payout where
  id : Nat
  submission_id : Nat
  campaign_id : Nat
  amount_usdt : Int
  token_symbol : String
  network : Network
  tx_hash : String
  paid_at : Nat
  paid_by : Option Nat
deriving DecidableEq, Repr

/-- The submission and payout tables together. -/
structure RewardsDb where
  submissions : List Submission
  payouts : List Payout
deriving DecidableEq, Repr

/-- `Payout.objects.create(...)` under the `one_payout_per_submission`
`UniqueConstraint(fields=["submission"])` of `Payout.Meta`, followed by the
`Payout.save` post-insert hook (models.py): reflect PAID status and the paid
flag onto the owning submission.  A second row for the same submission
violates the constraint: the insert raises `IntegrityError` and no row is
written — the failure the specification names `PayoutAlreadyExists`. -/
def payoutCreate (db : RewardsDb) (p : Payout) : Except String RewardsDb :=
  if db.payouts.any (fun q => q.submission_id = p.submission_id) then
    .error "PayoutAlreadyExists"
  else
    .ok { payouts := db.payouts ++ [p]
          submissions := db.submissions.map (fun s =>
            if s.id = p.submission_id ∧
               (s.is_paid = false ∨ s.status ≠ SubmissionStatus.PAID) then
              { s with is_paid := true, status := SubmissionStatus.PAID }
            else s) }

/-- Payout rows referencing submission `sid`. -/
def payoutsFor (db : RewardsDb) (sid : Nat) : List Payout :=
  db.payouts.filter (fun q => q.submission_id = sid)

/-- Status of the submission row with id `sid`. -/
def statusOf (db : RewardsDb) (sid : Nat) : Option SubmissionStatus :=
  (db.submissions.find? (fun s => s.id = sid)).map (fun s => s.status)

end LinkPepper

namespace LinkPepper

/-! ## Theorems: Campaign Gate (C5) -/

/-- C5: the gate `is_open_now` returns true iff the campaign is published,
not paused, and the current date lies in the inclusive window; and flipping
`is_paused` to true, all other fields and the date unchanged, makes it
return false.  The gate is by construction a pure total Boolean function of
the four fields and the date. -/
theorem is_open_now_spec (c : Campaign) (today : Int) :
    (c.is_open_now today = true ↔
      (c.is_published = true ∧ c.is_paused = false ∧ c.start ≤ today ∧ today ≤ c.«end»)) ∧
    ({ c with is_paused := true } : Campaign).is_open_now today = false := by
  constructor
  · simp only [Campaign.is_open_now, Bool.and_eq_true, Bool.not_eq_true', decide_eq_true_eq]
    tauto
  · simp [Campaign.is_open_now]

/-! ## Theorems: payout exclusivity (C1) -/

/-- C1: with no payout yet recorded for the submission, a first
`recordPayout` succeeds; a second attempt for the same submission creates no
second Payout row and fails with PayoutAlreadyExists (the
`one_payout_per_submission` uniqueness violation), leaving exactly one Payout
row for the submission. -/
theorem payout_exclusivity (db db' : RewardsDb) (p p' : Payout)
    (hsid : p'.submission_id = p.submission_id)
    (hnone : payoutsFor db p.submission_id = [])
    (hok : payoutCreate db p = Except.ok db') :
    payoutCreate db' p' = Except.error "PayoutAlreadyExists" ∧
    (payoutsFor db' p.submission_id).length = 1 := by
  have hany : db.payouts.any (fun q => q.submission_id = p.submission_id) = false := by
    rw [List.any_eq_false]
    intro q hq
    have := List.filter_eq_nil_iff.mp hnone q hq
    simpa using this
  rw [payoutCreate, hany] at hok
  simp only [Bool.false_eq_true, if_false, Except.ok.injEq] at hok
  subst hok
  constructor
  · rw [payoutCreate]
    have : ((db.payouts ++ [p]).any fun q => q.submission_id = p'.submission_id) = true := by
      simp [List.any_append, hsid]
    simp [this]
  · have hfil : payoutsFor db p.submission_id = [] := hnone
    rw [payoutsFor] at hfil ⊢
    simp [List.filter_append, hfil]

/-- Fixture for the C1 witness: an approved, unpaid submission. -/
def c1Sub : Submission :=
  { id := 1, campaign_id := 1, user_id := none, wallet_address := "0xabc"
    network := Network.ETH, post_url := "", comment := ""
    visited_url := "", code_entered := ""
    status := SubmissionStatus.APPROVED, proof_score := some 3
    reviewer_note := "", reviewed_by := none, reviewed_at := none
    is_approved := true, is_paid := false }

/-- Fixture for the C1 witness: the payout row recorded for `c1Sub`. -/
def c1Payout : Payout :=
  { id := 1, submission_id := 1, campaign_id := 1, amount_usdt := 6
    token_symbol := "USDT", network := Network.ETH, tx_hash := ""
    paid_at := 3, paid_by := some 9 }

/-- Fixture for the C1 witness: the database before any payout. -/
def c1Db : RewardsDb := { submissions := [c1Sub], payouts := [] }

/-- Fixture for the C1 witness: the database after the first payout. -/
def c1DbPaid : RewardsDb :=
  { submissions := [{ c1Sub with is_paid := true, status := SubmissionStatus.PAID }]
    payouts := [c1Payout] }

/-- C1 witness: at the concrete database `c1Db` the hypotheses of
`payout_exclusivity` hold, so a second payout attempt errors and one payout
row remains. -/
theorem payout_exclusivity_witness :
    payoutCreate c1DbPaid c1Payout = Except.error "PayoutAlreadyExists" ∧
    (payoutsFor c1DbPaid 1).length = 1 := by
  have h := payout_exclusivity c1Db c1DbPaid c1Payout c1Payout rfl (by rfl) (by rfl)
  exact h

/-! ## Theorems: review/payout state machine (C7) -/

/-- Fixture: a rejected submission that never got approved. -/
def c7Sub : Submission :=
  { id := 1, campaign_id := 1, user_id := none, wallet_address := "0xdef"
    network := Network.ETH, post_url := "", comment := ""
    visited_url := "", code_entered := ""
    status := SubmissionStatus.REJECTED, proof_score := none
    reviewer_note := "", reviewed_by := some 9, reviewed_at := some 4
    is_approved := false, is_paid := false }

/-- Fixture: `c7Sub` after payout creation reflected PAID onto it. -/
def c7PaidSub : Submission :=
  { c7Sub with is_paid := true, status := SubmissionStatus.PAID }

/-- Fixture: database holding only the rejected submission, no payouts. -/
def c7Db : RewardsDb := { submissions := [c7Sub], payouts := [] }

/-- Fixture: a payout row for the rejected submission. -/
def c7Payout : Payout :=
  { id := 1, submission_id := 1, campaign_id := 1, amount_usdt := 6
    token_symbol := "USDT", network := Network.ETH, tx_hash := ""
    paid_at := 5, paid_by := some 9 }

/-- Fixture: `c7Db` after the payout was created. -/
def c7DbPaid : RewardsDb := { submissions := [c7PaidSub], payouts := [c7Payout] }

/-- C7 counterexample: payout creation (the admin bulk action calls
`Payout.objects.create` for every selected submission that lacks a payout,
without checking its status) succeeds on a REJECTED submission and moves it
to PAID — so REJECTED is not terminal and a non-APPROVED submission moves to
PAID, contrary to the claim. -/
theorem rejected_to_paid_counterexample :
    statusOf c7Db 1 = some SubmissionStatus.REJECTED ∧
    payoutCreate c7Db c7Payout = Except.ok c7DbPaid ∧
    statusOf c7DbPaid 1 = some SubmissionStatus.PAID :=
  ⟨rfl, rfl, rfl⟩

/-- C7 amended: the review and payout operations set statuses
unconditionally — approve sets APPROVED and reject sets REJECTED from any
current status, and a successful payout creation (possible for any
submission lacking a payout, whatever its status) sets the submission PAID
with the paid flag; no operation checks the prior status, so the nominal
PENDING → APPROVED/REJECTED → PAID order is not enforced and backward or
skipping moves (PAID → APPROVED via approve, REJECTED → PAID via payout
creation) are possible. -/
theorem status_transitions_unguarded (s : Submission) (reviewer : Option Nat)
    (score : Option Nat) (note : Option String) (now r : Nat)
    (db db' : RewardsDb) (p : Payout) :
    (s.mark_approved reviewer score note now).status = SubmissionStatus.APPROVED ∧
    (mark_rejected s r now).status = SubmissionStatus.REJECTED ∧
    (payoutCreate db p = Except.ok db' →
      ∀ t ∈ db'.submissions, t.id = p.submission_id →
        t.status = SubmissionStatus.PAID ∧ t.is_paid = true) := by
  refine ⟨?_, rfl, ?_⟩
  · unfold Submission.mark_approved
    cases reviewer <;> cases score <;> cases note <;> simp <;> split <;> rfl
  · intro hok t ht htid
    rw [payoutCreate] at hok
    by_cases hany : db.payouts.any (fun q => q.submission_id = p.submission_id) = true
    · rw [if_pos hany] at hok
      exact absurd hok (by simp)
    · rw [if_neg hany] at hok
      cases hok
      simp only [List.mem_map] at ht
      obtain ⟨u, hu, hmap⟩ := ht
      by_cases hc : u.id = p.submission_id ∧
          (u.is_paid = false ∨ u.status ≠ SubmissionStatus.PAID)
      · rw [if_pos hc] at hmap
        subst hmap
        exact ⟨rfl, rfl⟩
      · rw [if_neg hc] at hmap
        subst hmap
        push_neg at hc
        obtain ⟨hpaid, hstat⟩ := hc htid
        exact ⟨hstat, by simpa using hpaid⟩

/-- C7 amended witness: at the concrete rejected submission, approve yields
APPROVED, reject yields REJECTED, and the recorded payout left the row PAID
and flagged paid. -/
theorem status_transitions_unguarded_witness :
    (Submission.mark_approved c7Sub (some 9) none none 5).status = SubmissionStatus.APPROVED ∧
    (mark_rejected c7Sub 9 5).status = SubmissionStatus.REJECTED ∧
    (c7PaidSub.status = SubmissionStatus.PAID ∧ c7PaidSub.is_paid = true) := by
  have h := status_transitions_unguarded c7Sub (some 9) none none 5 9 c7Db c7DbPaid c7Payout
  exact ⟨h.1, h.2.1, h.2.2 rfl c7PaidSub (by simp [c7DbPaid]) rfl⟩

/-! ## Theorems: session read accessor (C8) -/

/-- C8: the request read path (WalletAuthMiddleware, installed in
`settings.MIDDLEWARE`, followed by `get_wallet_user`) resolves a session
bound to an existing identity to that identity; an unbound session resolves
to none; and a session bound to an id with no surviving row resolves to none
with the stale `wallet_user_id` binding popped from the session.
(WalletUser ids are positive `BigAutoField` values, hence `uid ≠ 0`.) -/
theorem session_read_accessor (users : List WalletUser) (session : Option Nat) :
    (session = none → resolveWalletUser users session = (none, none)) ∧
    (∀ uid u, session = some uid → uid ≠ 0 →
      users.find? (fun w => w.id = uid) = some u →
      resolveWalletUser users session = (some u, some uid)) ∧
    (∀ uid, session = some uid → uid ≠ 0 →
      users.find? (fun w => w.id = uid) = none →
      resolveWalletUser users session = (none, none)) := by
  refine ⟨?_, ?_, ?_⟩
  · intro h
    subst h
    rfl
  · intro uid u hs h0 hf
    subst hs
    simp [resolveWalletUser, walletAuthMiddleware, get_wallet_user, h0, hf]
  · intro uid hs h0 hf
    subst hs
    simp [resolveWalletUser, walletAuthMiddleware, get_wallet_user, h0, hf]

/-- Fixture: a wallet identity used by the C8 witness. -/
def c8User : WalletUser :=
  { id := 1, address := "0xabcabcabcabcabcabcabcabcabcabcabcabcabca"
    display_name := "w", email := "", nonce := "", last_login := none
    is_admin := false }

/-- C8 witness: with one identity of id 1, a session bound to 1 resolves to
it, and a stale session bound to 2 resolves to none with the binding
cleared. -/
theorem session_read_accessor_witness :
    resolveWalletUser [c8User] (some 1) = (some c8User, some 1) ∧
    resolveWalletUser [c8User] (some 2) = (none, none) := by
  have h1 := session_read_accessor [c8User] (some 1)
  have h2 := session_read_accessor [c8User] (some 2)
  exact ⟨h1.2.1 1 c8User rfl (by decide) (by rfl), h2.2.2 2 rfl (by decide) (by rfl)⟩

/-! ## Theorems: nonce single use (C2) -/

/-- Writing back a row by its unique address leaves it findable: if some row
holds address `a` and the written row `u` holds address `a`, the lookup
afterwards returns `u`. -/
theorem findByAddress_save (users : List WalletUser) (a : String)
    (u v : WalletUser) (hu : u.address = a) (hv : findByAddress users a = some v) :
    findByAddress (saveByAddress users u) a = some u := by
  induction users with
  | nil => simp [findByAddress] at hv
  | cons w ws ih =>
    by_cases hw : w.address = a
    · have hwu : w.address = u.address := by rw [hw, hu]
      simp [findByAddress, saveByAddress, hwu, hu]
    · have hwu : ¬ w.address = u.address := by rw [hu]; exact hw
      have hv' : findByAddress ws a = some v := by
        simpa [findByAddress, List.find?_cons, hw] using hv
      have hrec := ih hv'
      simpa [findByAddress, saveByAddress, hwu, hw] using hrec

/-- C2: whenever a verify call succeeds, the updated identity has an empty
nonce and `last_login` set to the current time, the session is bound to the
id of the identity, the identity is the row for the normalized claimed address,
and repeating the very same verify call (same address, message, signature)
against the resulting state fails with the NoPendingChallenge body
`"no nonce; request /api/auth/nonce first"`. -/
theorem nonce_single_use (recover : String → String → Option String) (now : Nat)
    (addrRaw msgRaw sigRaw : Option String) (st st' : AuthState) (u : WalletUser)
    (hok : api_verify recover now addrRaw msgRaw sigRaw st = Except.ok (st', u)) :
    u.nonce = "" ∧ u.last_login = some now ∧ st'.session = some u.id ∧
    _normalize_evm_address addrRaw = some u.address ∧
    api_verify recover now addrRaw msgRaw sigRaw st' =
      Except.error "no nonce; request /api/auth/nonce first" := by
  simp only [api_verify] at hok
  cases hA : _normalize_evm_address addrRaw with
  | none => simp [hA] at hok
  | some addr =>
  simp only [hA] at hok
  by_cases hM : pyStrip (getOr msgRaw) = ""
  · rw [if_pos hM] at hok; simp at hok
  rw [if_neg hM] at hok
  by_cases hS : pyStrip (getOr sigRaw) = ""
  · rw [if_pos hS] at hok; simp at hok
  rw [if_neg hS] at hok
  cases hF : findByAddress st.users addr with
  | none => simp [hF] at hok
  | some user =>
  simp only [hF] at hok
  by_cases hN : user.nonce = ""
  · rw [if_pos hN] at hok; simp at hok
  rw [if_neg hN] at hok
  by_cases hE : pyStrip (getOr msgRaw) ≠ _login_message user.nonce
  · rw [if_pos hE] at hok; simp at hok
  rw [if_neg hE] at hok
  cases hR : recover (pyStrip (getOr msgRaw)) (pyStrip (getOr sigRaw)) with
  | none => simp [hR] at hok
  | some recRaw =>
  simp only [hR] at hok
  by_cases hC : pyLower recRaw ≠ addr
  · rw [if_pos hC] at hok; simp at hok
  rw [if_neg hC] at hok
  simp only [Except.ok.injEq, Prod.mk.injEq] at hok
  obtain ⟨hst', hu⟩ := hok
  subst hst' hu
  have haddr : user.address = addr := by
    have := List.find?_some hF
    simpa using this
  refine ⟨rfl, rfl, rfl, by simp [hA, haddr], ?_⟩
  have hfind2 :
      findByAddress (saveByAddress st.users
        { user with last_login := some now, nonce := "" }) addr =
      some { user with last_login := some now, nonce := "" } :=
    findByAddress_save st.users addr _ user (by simpa using haddr) hF
  simp only [api_verify, hA, hfind2]
  simp [hM, hS]

/-- Fixture: the claimed (already lowercase) EVM address for the C2/C3
scenarios. -/
def c2Addr : String := "0xaaaaaaaaaaaaaaaaaaaaaaaaaaaaaaaaaaaaaaaa"

/-- Fixture: the identity holding pending nonce `"n1"`. -/
def c2User : WalletUser :=
  { id := 1, address := c2Addr, display_name := c2Addr, email := ""
    nonce := "n1", last_login := none, is_admin := false }

/-- Fixture: the canonical challenge message for nonce `"n1"`. -/
def c2Msg : String := _login_message "n1"

/-- Fixture: a signature-recovery oracle that recovers `c2Addr` exactly from
the canonical message and the signature `"0xsig"`. -/
def c2Recover : String → String → Option String :=
  fun m s => if m = c2Msg && s = "0xsig" then some c2Addr else none

/-- Fixture: the server state right after nonce issuance. -/
def c2St : AuthState := { users := [c2User], session := none }

/-- Fixture: the identity after a successful verification at time 7. -/
def c2UserAfter : WalletUser := { c2User with last_login := some 7, nonce := "" }

/-- Fixture: the server state after a successful verification at time 7. -/
def c2StAfter : AuthState := { users := [c2UserAfter], session := some 1 }

/-- C2 witness: at the concrete state, the first verify succeeds (discharged
by evaluation) and, applying `nonce_single_use`, repeating it fails with the
NoPendingChallenge body. -/
theorem nonce_single_use_witness :
    api_verify c2Recover 7 (some c2Addr) (some c2Msg) (some "0xsig") c2StAfter =
      Except.error "no nonce; request /api/auth/nonce first" :=
  (nonce_single_use c2Recover 7 (some c2Addr) (some c2Msg) (some "0xsig")
    c2St c2StAfter c2UserAfter (by rfl)).2.2.2.2

/-! ## Theorems: message byte-identity (C3) -/

/-- C3 counterexample: a submitted message that is NOT byte-identical to the
canonical template message — it carries one added trailing space — does not
fail with MessageMismatch: the view strips the submitted message before the
comparison, so the whole verify call succeeds. -/
theorem message_mismatch_strip_counterexample :
    (c2Msg ++ " ") ≠ c2Msg ∧
    api_verify c2Recover 7 (some c2Addr) (some (c2Msg ++ " ")) (some "0xsig") c2St =
      Except.ok (c2StAfter, c2UserAfter) :=
  ⟨by decide, by rfl⟩

/-- C3 amended: once the verify call reaches the message check (address
normalizes to a known identity with a pending nonce, message and signature
non-empty after stripping), it fails with the MessageMismatch body
`"message mismatch"` iff the submitted message, after Python whitespace
stripping of both ends, is not byte-identical to the canonical template
message for the stored nonce.  Interior deviations such as changed line
endings therefore still fail, but added leading or trailing whitespace is
removed before the comparison and does not. -/
theorem message_mismatch_iff_strip (recover : String → String → Option String)
    (now : Nat) (addrRaw msgRaw sigRaw : Option String) (st : AuthState)
    (addr : String) (u : WalletUser)
    (ha : _normalize_evm_address addrRaw = some addr)
    (hfind : findByAddress st.users addr = some u)
    (hnonce : ¬ u.nonce = "")
    (hmsg : ¬ pyStrip (getOr msgRaw) = "")
    (hsig : ¬ pyStrip (getOr sigRaw) = "") :
    api_verify recover now addrRaw msgRaw sigRaw st = Except.error "message mismatch" ↔
      pyStrip (getOr msgRaw) ≠ _login_message u.nonce := by
  simp only [api_verify, ha, hfind]
  rw [if_neg hmsg, if_neg hsig, if_neg hnonce]
  by_cases hE : pyStrip (getOr msgRaw) ≠ _login_message u.nonce
  · rw [if_pos hE]
    simp [hE]
  · rw [if_neg hE]
    constructor
    · intro h
      cases hR : recover (pyStrip (getOr msgRaw)) (pyStrip (getOr sigRaw)) with
      | none => simp [hR] at h
      | some r =>
        simp only [hR] at h
        by_cases hc : pyLower r ≠ addr
        · rw [if_pos hc] at h; simp at h
        · rw [if_neg hc] at h; simp at h
    · intro h
      exact absurd h hE

/-- C3 amended witness: at the concrete state with pending nonce `"n1"`, the
garbled message `"hello"` fails with the MessageMismatch body. -/
theorem message_mismatch_iff_strip_witness :
    api_verify c2Recover 7 (some c2Addr) (some "hello") (some "0xsig") c2St =
      Except.error "message mismatch" :=
  (message_mismatch_iff_strip c2Recover 7 (some c2Addr) (some "hello") (some "0xsig")
    c2St c2Addr c2User (by rfl) (by rfl) (by decide) (by decide) (by decide)).mpr
    (by decide)

/-! ## Theorems: address validation (C4) -/

/-- The address shape the specification describes, stated from the
wording of the specification for comparison with the check in the code: after case
folding, the literal `"0x"` followed by exactly 40 hexadecimal characters. -/
def specAddressShape (s : String) : Bool :=
  let a := pyLower s
  strStartsWith a "0x" && a.length = 42 &&
    (a.data.drop 2).all (fun c => c.isDigit || ('a' ≤ c && c ≤ 'f'))

/-- Fixture: a 42-character `0x`-prefixed string whose 40 tail characters are
not hexadecimal. -/
def c4Bad : String := "0xzzzzzzzzzzzzzzzzzzzzzzzzzzzzzzzzzzzzzzzz"

/-- Fixture: the identity row `api_nonce` creates for `c4Bad`. -/
def c4User : WalletUser :=
  { id := 1, address := c4Bad, display_name := c4Bad, email := ""
    nonce := "tok1", last_login := none, is_admin := false }

/-- C4 counterexample: the claimed address `c4Bad` does not match the
`0x`+40-hexadecimal shape, yet nonce issuance accepts it and creates an
identity for it — `_normalize_evm_address` checks only the `0x` prefix and
the total length 42, never that the characters are hexadecimal. -/
theorem invalid_address_hex_counterexample :
    specAddressShape c4Bad = false ∧
    api_nonce (some c4Bad) "tok1" 1 [] =
      Except.ok ([c4User], c4User, _login_message "tok1") :=
  ⟨by decide, by rfl⟩

/-- C4 amended: nonce issuance fails with the 400 body `"invalid address"`
iff the input is absent, empty, or does not strip to a 42-character string
starting with the literal lowercase `"0x"`; no hexadecimal-digit check is
performed (and the `"0x"` prefix test is case-sensitive, not case-folded).
Accepted inputs are stored and returned lowercased, with the fresh token as
nonce and the canonical message built from it. -/
theorem api_nonce_accept_iff (raw : Option String) (token : String) (fid : Nat)
    (users : List WalletUser) :
    (api_nonce raw token fid users = Except.error "invalid address" ↔
      ¬ ∃ s, raw = some s ∧ s ≠ "" ∧
        strStartsWith (pyStrip s) "0x" = true ∧ (pyStrip s).length = 42) ∧
    (∀ s res, raw = some s → api_nonce raw token fid users = Except.ok res →
      res.2.1.address = pyLower (pyStrip s) ∧ res.2.1.nonce = token ∧
      res.2.2 = _login_message token) := by
  constructor
  · cases raw with
    | none => simp [api_nonce, _normalize_evm_address]
    | some s =>
      by_cases h0 : s = ""
      · subst h0
        simp [api_nonce, _normalize_evm_address]
      · cases hb : strStartsWith (pyStrip s) "0x" && decide ((pyStrip s).length = 42) with
        | false =>
          have herr : api_nonce (some s) token fid users = Except.error "invalid address" := by
            simp [api_nonce, _normalize_evm_address, h0, hb]
          simp only [herr, true_iff]
          rintro ⟨t, hts, ht0, hpre, hlen⟩
          obtain rfl : t = s := by injection hts with h; exact h.symm
          rw [hpre] at hb
          simp [hlen] at hb
        | true =>
          have hsome : _normalize_evm_address (some s) = some (pyLower (pyStrip s)) := by
            simp [_normalize_evm_address, h0, hb]
          have hok : ∃ r, api_nonce (some s) token fid users = Except.ok r := by
            simp only [api_nonce, hsome]
            exact ⟨_, rfl⟩
          obtain ⟨r, hr⟩ := hok
          rw [hr]
          constructor
          · intro h
            simp at h
          · intro hno
            exfalso
            apply hno
            have hb' := (Bool.and_eq_true _ _).mp hb
            exact ⟨s, rfl, h0, hb'.1, by simpa using hb'.2⟩
  · intro s res hraw hok
    subst hraw
    by_cases h0 : s = ""
    · subst h0
      simp [api_nonce, _normalize_evm_address] at hok
    cases hb : strStartsWith (pyStrip s) "0x" && decide ((pyStrip s).length = 42) with
    | false =>
      simp [api_nonce, _normalize_evm_address, h0, hb] at hok
    | true =>
      have hsome : _normalize_evm_address (some s) = some (pyLower (pyStrip s)) := by
        simp [_normalize_evm_address, h0, hb]
      simp only [api_nonce, hsome] at hok
      cases hf : findByAddress users (pyLower (pyStrip s)) with
      | none =>
        simp only [hf] at hok
        cases hok
        exact ⟨rfl, rfl, rfl⟩
      | some u =>
        simp only [hf] at hok
        cases hok
        have hu : u.address = pyLower (pyStrip s) := by
          have := List.find?_some hf
          simpa [findByAddress] using this
        exact ⟨hu, rfl, rfl⟩

/-- Fixture: the uppercase variant of `c4Bad`; accepted and lowercased. -/
def c4BadMixed : String := "0xZZZZZZZZZZZZZZZZZZZZZZZZZZZZZZZZZZZZZZZZ"

/-- Fixture: the identity row `api_nonce` creates for `c4BadMixed`. -/
def c4UserMixed : WalletUser :=
  { id := 1, address := "0xzzzzzzzzzzzzzzzzzzzzzzzzzzzzzzzzzzzzzzzz"
    display_name := "0xzzzzzzzzzzzzzzzzzzzzzzzzzzzzzzzzzzzzzzzz", email := ""
    nonce := "tok1", last_login := none, is_admin := false }

/-- C4 amended witness: `"nothex"` is rejected with the invalid-address
body, and the accepted mixed-case input is stored lowercased with the fresh
nonce. -/
theorem api_nonce_accept_iff_witness :
    api_nonce (some "nothex") "tok1" 1 [] = Except.error "invalid address" ∧
    c4UserMixed.address = pyLower (pyStrip c4BadMixed) := by
  constructor
  · apply (api_nonce_accept_iff (some "nothex") "tok1" 1 []).1.mpr
    rintro ⟨t, hts, ht0, hpre, hlen⟩
    obtain rfl : t = "nothex" := by injection hts with h; exact h.symm
    exact absurd hlen (by decide)
  · exact ((api_nonce_accept_iff (some c4BadMixed) "tok1" 1 []).2 c4BadMixed
      ([c4UserMixed], c4UserMixed, _login_message "tok1") rfl (by rfl)).1

/-! ## Theorems: submission endpoints (C6) -/

/-- C6: on the LINK and VISIT endpoints (slug already resolved), the checks
fire in order — wrong task type, then campaign closed, then missing
wallet/network — each failure returning its 400 body and leaving the
submission table unchanged; the network clean-up accepts exactly the
strings whose upper-stripped form is one of ETH, SOL, BNB, POL; and on
success exactly one new row is appended, PENDING, carrying only the
task-shape fields of the campaign task type (LINK rows have blank visit
fields, VISIT rows blank link fields). -/
theorem submit_endpoint_checks (c : Campaign) (user : Option Nat) (d : PostData)
    (today : Int) (fid : Nat) (subs : List Submission) :
    (∀ v : Option String, (_clean_network v).isSome = true ↔
      pyStrip (pyUpper (getOr v)) ∈ (["ETH", "SOL", "BNB", "POL"] : List String)) ∧
    (c.task_type ≠ TaskType.LINK →
      submit_link c user d today fid subs = (Except.error "wrong task type", subs)) ∧
    (c.task_type = TaskType.LINK → c.is_open_now today = false →
      submit_link c user d today fid subs = (Except.error "campaign closed", subs)) ∧
    (c.task_type = TaskType.LINK → c.is_open_now today = true →
      (pyStrip (getOr (orElseStr d.wallet d.wallet_address)) = "" ∨
        _clean_network d.network = none) →
      submit_link c user d today fid subs =
        (Except.error "wallet and network required", subs)) ∧
    (∀ nw, c.task_type = TaskType.LINK → c.is_open_now today = true →
      pyStrip (getOr (orElseStr d.wallet d.wallet_address)) ≠ "" →
      _clean_network d.network = some nw →
      ∃ r, submit_link c user d today fid subs = (Except.ok (), subs ++ [r]) ∧
        r.status = SubmissionStatus.PENDING ∧ r.visited_url = "" ∧
        r.code_entered = "" ∧ r.campaign_id = c.id ∧ r.network = nw) ∧
    (c.task_type ≠ TaskType.VISIT →
      submit_visit c user d today fid subs = (Except.error "wrong task type", subs)) ∧
    (c.task_type = TaskType.VISIT → c.is_open_now today = false →
      submit_visit c user d today fid subs = (Except.error "campaign closed", subs)) ∧
    (c.task_type = TaskType.VISIT → c.is_open_now today = true →
      (pyStrip (getOr (orElseStr d.wallet2 (orElseStr d.wallet d.wallet_address))) = "" ∨
        _clean_network d.network = none) →
      submit_visit c user d today fid subs =
        (Except.error "wallet and network required", subs)) ∧
    (∀ nw, c.task_type = TaskType.VISIT → c.is_open_now today = true →
      pyStrip (getOr (orElseStr d.wallet2 (orElseStr d.wallet d.wallet_address))) ≠ "" →
      _clean_network d.network = some nw →
      ∃ r, submit_visit c user d today fid subs = (Except.ok (), subs ++ [r]) ∧
        r.status = SubmissionStatus.PENDING ∧ r.post_url = "" ∧
        r.comment = "" ∧ r.campaign_id = c.id ∧ r.network = nw) := by
  refine ⟨?_, ?_, ?_, ?_, ?_, ?_, ?_, ?_, ?_⟩
  · intro v
    unfold _clean_network Network.fromString
    split_ifs with h1 h2 h3 h4 <;> simp_all
  · intro ht
    rw [submit_link, if_pos ht]
  · intro ht hopen
    rw [submit_link, if_neg (by simp [ht]), if_pos hopen]
  · intro ht hopen hmiss
    rw [submit_link, if_neg (by simp [ht]), if_neg (by simp [hopen])]
    cases hn : _clean_network d.network with
    | none => rfl
    | some nw =>
      rcases hmiss with hw | hnone
      · simp only [if_pos hw]
      · rw [hn] at hnone
        exact absurd hnone (by simp)
  · intro nw ht hopen hw hn
    rw [submit_link, if_neg (by simp [ht]), if_neg (by simp [hopen])]
    simp only [hn]
    rw [if_neg hw]
    exact ⟨_, rfl, rfl, rfl, rfl, rfl, rfl⟩
  · intro ht
    rw [submit_visit, if_pos ht]
  · intro ht hopen
    rw [submit_visit, if_neg (by simp [ht]), if_pos hopen]
  · intro ht hopen hmiss
    rw [submit_visit, if_neg (by simp [ht]), if_neg (by simp [hopen])]
    cases hn : _clean_network d.network with
    | none => rfl
    | some nw =>
      rcases hmiss with hw | hnone
      · simp only [if_pos hw]
      · rw [hn] at hnone
        exact absurd hnone (by simp)
  · intro nw ht hopen hw hn
    rw [submit_visit, if_neg (by simp [ht]), if_neg (by simp [hopen])]
    simp only [hn]
    rw [if_neg hw]
    exact ⟨_, rfl, rfl, rfl, rfl, rfl, rfl⟩

/-- Fixture: an open, published VISIT campaign (window 0..10). -/
def c6Campaign : Campaign :=
  { id := 1, slug := "launch", task_type := TaskType.VISIT
    client_site_domain := "", pool_usdt := 3200, payout_usdt := 6
    start := 0, «end» := 10, is_published := true, is_paused := false }

/-- Fixture: a form post carrying wallet, lowercase network tag and code. -/
def c6Post : PostData :=
  { post_url := none, comment := none, wallet := some "0xabc"
    wallet_address := none, wallet2 := none, network := some "eth"
    code := some "ABC", visit_code := none, visited_url := none }

/-- C6 witness: the link endpoint rejects the VISIT campaign, the paused
variant rejects with campaign closed leaving the table empty, and the open
variant accepts the visit submission as a single PENDING row. -/
theorem submit_endpoint_checks_witness :
    submit_link c6Campaign none c6Post 5 1 [] =
      (Except.error "wrong task type", ([] : List Submission)) ∧
    submit_visit { c6Campaign with is_paused := true } none c6Post 5 1 [] =
      (Except.error "campaign closed", ([] : List Submission)) ∧
    ∃ r, submit_visit c6Campaign none c6Post 5 1 [] = (Except.ok (), [r]) ∧
      r.status = SubmissionStatus.PENDING := by
  have h := submit_endpoint_checks c6Campaign none c6Post 5 1 []
  have hp := submit_endpoint_checks { c6Campaign with is_paused := true } none c6Post 5 1 []
  refine ⟨h.2.1 (by decide), hp.2.2.2.2.2.2.1 rfl (by decide), ?_⟩
  obtain ⟨r, hr, hpend, _⟩ :=
    h.2.2.2.2.2.2.2.2 Network.ETH rfl (by decide) (by decide) (by rfl)
  exact ⟨r, hr, hpend⟩

/-! ## Theorems: visited_url override (C9) -/

/-- C9: whatever `visited_url` the caller posts, a successfully created
VISIT submission stores the campaign `client_site_domain` whenever that
field is non-blank; only when it is blank does the (stripped)
caller-supplied value get stored. -/
theorem visit_visited_url_override (c : Campaign) (user : Option Nat)
    (d : PostData) (today : Int) (fid : Nat) (subs : List Submission)
    (r : Submission)
    (h : submit_visit c user d today fid subs = (Except.ok (), subs ++ [r])) :
    (c.client_site_domain ≠ "" → r.visited_url = c.client_site_domain) ∧
    (c.client_site_domain = "" → r.visited_url = pyStrip (getOr d.visited_url)) := by
  simp only [submit_visit] at h
  by_cases ht : c.task_type ≠ TaskType.VISIT
  · rw [if_pos ht] at h
    simp at h
  rw [if_neg ht] at h
  by_cases hopen : c.is_open_now today = false
  · rw [if_pos hopen] at h
    simp at h
  rw [if_neg hopen] at h
  cases hn : _clean_network d.network with
  | none => simp [hn] at h
  | some nw =>
    simp only [hn] at h
    by_cases hw :
        pyStrip (getOr (orElseStr d.wallet2 (orElseStr d.wallet d.wallet_address))) = ""
    · rw [if_pos hw] at h
      simp at h
    rw [if_neg hw] at h
    simp only [Prod.mk.injEq] at h
    have hrow := List.append_cancel_left h.2
    simp only [List.cons.injEq, and_true] at hrow
    subst hrow
    constructor
    · intro hdom
      simp [if_pos hdom]
    · intro hdom
      simp [hdom]

/-- Fixture: the open VISIT campaign with a client site domain set. -/
def c9Campaign : Campaign := { c6Campaign with client_site_domain := "client.example" }

/-- Fixture: the form post carrying a different visited URL. -/
def c9Post : PostData := { c6Post with visited_url := some "https://elsewhere.example" }

/-- Fixture: the row `submit_visit` creates for `c9Campaign` and `c9Post`. -/
def c9Row : Submission :=
  { id := 1, campaign_id := 1, user_id := none, wallet_address := "0xabc"
    network := Network.ETH, post_url := "", comment := ""
    visited_url := "client.example", code_entered := "ABC"
    status := SubmissionStatus.PENDING, proof_score := none
    reviewer_note := "", reviewed_by := none, reviewed_at := none
    is_approved := false, is_paid := false }

/-- C9 witness: with the domain set, the stored `visited_url` is the
campaign domain, not the posted `https://elsewhere.example`. -/
theorem visit_visited_url_override_witness :
    c9Row.visited_url = "client.example" :=
  (visit_visited_url_override c9Campaign none c9Post 5 1 [] c9Row (by rfl)).1 (by decide)

/-! ## Theorems: duplicate submissions accumulate (C10) -/

/-- C10: `Submission.Meta` declares no uniqueness constraint on
(campaign, user) or (campaign, wallet_address) — only `ordering` and two
plain indexes — so the duplicate-conflict swallow in the endpoints has no
duplicate to swallow and successive successful calls with identical form
data each append one more distinct PENDING row; duplicates accumulate
without bound. -/
theorem submissions_accumulate (c c₂ : Campaign) (user : Option Nat)
    (d : PostData) (today : Int) (f1 f2 : Nat) (subs : List Submission)
    (nw : Network) :
    (c.task_type = TaskType.LINK → c.is_open_now today = true →
      pyStrip (getOr (orElseStr d.wallet d.wallet_address)) ≠ "" →
      _clean_network d.network = some nw →
      ∃ r1 r2, submit_link c user d today f1 subs = (Except.ok (), subs ++ [r1]) ∧
        submit_link c user d today f2 (subs ++ [r1]) = (Except.ok (), subs ++ [r1, r2]) ∧
        r1.status = SubmissionStatus.PENDING ∧ r2.status = SubmissionStatus.PENDING ∧
        r1.id = f1 ∧ r2.id = f2) ∧
    (c₂.task_type = TaskType.VISIT → c₂.is_open_now today = true →
      pyStrip (getOr (orElseStr d.wallet2 (orElseStr d.wallet d.wallet_address))) ≠ "" →
      _clean_network d.network = some nw →
      ∃ r1 r2, submit_visit c₂ user d today f1 subs = (Except.ok (), subs ++ [r1]) ∧
        submit_visit c₂ user d today f2 (subs ++ [r1]) = (Except.ok (), subs ++ [r1, r2]) ∧
        r1.status = SubmissionStatus.PENDING ∧ r2.status = SubmissionStatus.PENDING ∧
        r1.id = f1 ∧ r2.id = f2) := by
  constructor
  · intro ht hopen hw hn
    refine
      ⟨{ id := f1, campaign_id := c.id, user_id := user
         wallet_address := pyStrip (getOr (orElseStr d.wallet d.wallet_address))
         network := nw, post_url := pyStrip (getOr d.post_url)
         comment := pyStrip (getOr d.comment), visited_url := "", code_entered := ""
         status := SubmissionStatus.PENDING, proof_score := some 0
         reviewer_note := "", reviewed_by := none, reviewed_at := none
         is_approved := false, is_paid := false },
       { id := f2, campaign_id := c.id, user_id := user
         wallet_address := pyStrip (getOr (orElseStr d.wallet d.wallet_address))
         network := nw, post_url := pyStrip (getOr d.post_url)
         comment := pyStrip (getOr d.comment), visited_url := "", code_entered := ""
         status := SubmissionStatus.PENDING, proof_score := some 0
         reviewer_note := "", reviewed_by := none, reviewed_at := none
         is_approved := false, is_paid := false }, ?_, ?_, rfl, rfl, rfl, rfl⟩
    · rw [submit_link, if_neg (by simp [ht]), if_neg (by simp [hopen])]
      simp only [hn]
      rw [if_neg hw]
    · rw [submit_link, if_neg (by simp [ht]), if_neg (by simp [hopen])]
      simp only [hn]
      rw [if_neg hw]
      simp
  · intro ht hopen hw hn
    refine
      ⟨{ id := f1, campaign_id := c₂.id, user_id := user
         wallet_address :=
           pyStrip (getOr (orElseStr d.wallet2 (orElseStr d.wallet d.wallet_address)))
         network := nw, post_url := "", comment := ""
         visited_url :=
           if c₂.client_site_domain ≠ "" then c₂.client_site_domain
           else pyStrip (getOr d.visited_url)
         code_entered := pyStrip (getOr (orElseStr d.code d.visit_code))
         status := SubmissionStatus.PENDING, proof_score := none
         reviewer_note := "", reviewed_by := none, reviewed_at := none
         is_approved := false, is_paid := false },
       { id := f2, campaign_id := c₂.id, user_id := user
         wallet_address :=
           pyStrip (getOr (orElseStr d.wallet2 (orElseStr d.wallet d.wallet_address)))
         network := nw, post_url := "", comment := ""
         visited_url :=
           if c₂.client_site_domain ≠ "" then c₂.client_site_domain
           else pyStrip (getOr d.visited_url)
         code_entered := pyStrip (getOr (orElseStr d.code d.visit_code))
         status := SubmissionStatus.PENDING, proof_score := none
         reviewer_note := "", reviewed_by := none, reviewed_at := none
         is_approved := false, is_paid := false }, ?_, ?_, rfl, rfl, rfl, rfl⟩
    · rw [submit_visit, if_neg (by simp [ht]), if_neg (by simp [hopen])]
      simp only [hn]
      rw [if_neg hw]
    · rw [submit_visit, if_neg (by simp [ht]), if_neg (by simp [hopen])]
      simp only [hn]
      rw [if_neg hw]
      simp

/-- Fixture: the open LINK campaign for the accumulation witness. -/
def c10Campaign : Campaign := { c6Campaign with task_type := TaskType.LINK }

/-- C10 witness: two identical successful link submissions against the
empty table leave two distinct PENDING rows. -/
theorem submissions_accumulate_witness :
    ∃ r1 r2, submit_link c10Campaign none c6Post 5 1 [] = (Except.ok (), [r1]) ∧
      submit_link c10Campaign none c6Post 5 2 [r1] = (Except.ok (), [r1, r2]) ∧
      r1.status = SubmissionStatus.PENDING ∧ r2.status = SubmissionStatus.PENDING ∧
      r1.id = 1 ∧ r2.id = 2 :=
  (submissions_accumulate c10Campaign c10Campaign none c6Post 5 1 2 []
    Network.ETH).1 rfl (by decide) (by decide) (by rfl)

end LinkPepper
